import Mathlib

/-!
Shallow embedding of the field-validation protocol and the submission /
listing handlers of the django-htmx-complete repository.

Source files embedded: `accounts/views.py` (validate_username,
validate_first_name, validate_last_name, validate_email_register,
validate_password, validate_password2, validate_login_username,
validate_login_password, validate_phone, validate_website) and
`core/views.py` (validate_name, validate_email, validate_subject,
validate_message, validate_newsletter_email, newsletter_subscribe,
contact_list_view).

Conventions of the embedding:
* A Django request handler that reads one form field becomes a Lean
  function from the relevant persistent sets (lists of records) and the
  raw field value to an `Outcome`.  `request.POST.get(field, '')` means a
  missing field arrives as `""`, so missing input is the input `""`.
* Python's `str.strip()` is `pyStrip` (both-ends removal of ASCII
  whitespace); Python `len` on a string is `String.length` (characters).
* Each regex of the source is translated to an executable predicate over
  the characters of the (already stripped) value; anchored full-match
  semantics are exact for stripped strings, where the Python `$`
  trailing-newline subtlety cannot arise.
* Every function is total: the "no check function raises" discipline of
  the source is reflected by the embedding being ordinary total functions.
-/

/-- Python `str.strip()` whitespace class, restricted to ASCII (the
characters actually reachable through the form fields the code handles). -/
def isPyWhitespace (c : Char) : Bool :=
  c == ' ' || c == '\t' || c == '\n' || c == '\r' || c == '\x0b' || c == '\x0c'

/-- Python `str.strip()`: drop whitespace from both ends. -/
def pyStrip (s : String) : String :=
  String.mk ((s.data.dropWhile isPyWhitespace).reverse.dropWhile isPyWhitespace).reverse

/-- Helper for Python `str.split()` with no separator: accumulate the
current word (reversed) and cut at whitespace runs. -/
def pyWordsAux : List Char → List Char → List (List Char)
  | [], cur => if cur.isEmpty then [] else [cur.reverse]
  | c :: rest, cur =>
    if isPyWhitespace c then
      if cur.isEmpty then pyWordsAux rest [] else cur.reverse :: pyWordsAux rest []
    else pyWordsAux rest (c :: cur)

/-- Python `message.split()`: the whitespace-separated tokens. -/
def pyWords (s : String) : List String :=
  (pyWordsAux s.data []).map String.mk

/-- Boolean list-prefix test (used to build substring containment). -/
def isPrefixOfL : List Char → List Char → Bool
  | [], _ => true
  | _ :: _, [] => false
  | a :: as, b :: bs => a == b && isPrefixOfL as bs

/-- Boolean substring containment on character lists. -/
def containsL : List Char → List Char → Bool
  | hay, needle =>
    match hay with
    | [] => needle.isEmpty
    | _ :: rest => isPrefixOfL needle hay || containsL rest needle

/-- Lowercase a character list (Python/SQL `lower` on the ASCII range). -/
def lowerL (cs : List Char) : List Char :=
  cs.map Char.toLower

/-- Django `field__icontains=q`: case-insensitive substring containment. -/
def icontains (hay q : String) : Bool :=
  containsL (lowerL hay.data) (lowerL q.data)

/-- Outcome of one field-validation endpoint: empty body, or a success /
warning / error fragment with its message, or the specialized password
strength fragment carrying `strength`, `feedback` and `password_length`. -/
inductive Outcome where
  | empty : Outcome
  | success : String → Outcome
  | warning : String → Outcome
  | error : String → Outcome
  | strength : Nat → List String → Nat → Outcome
  deriving DecidableEq, Repr

/-- One `auth.User` row, restricted to the columns the validators read. -/
structure Account where
  username : String
  email : String
  deriving DecidableEq, Repr

/-- One `Contact` row, restricted to the columns read by the validators
and by `contact_list_view` (search touches name/email/subject, the status
filter touches `is_resolved`). -/
structure ContactRec where
  name : String
  email : String
  subject : String
  is_resolved : Bool
  deriving DecidableEq, Repr

/-- Character class `[a-zA-Z0-9@.+_-]` of the username regex. -/
def usernameChar (c : Char) : Bool :=
  c.isAlphanum || c == '@' || c == '.' || c == '+' || c == '_' || c == '-'

/-- Character class `[a-zA-Z\s]` of the name regexes. -/
def nameChar (c : Char) : Bool :=
  c.isAlpha || isPyWhitespace c

/-- Local-part character class `[a-zA-Z0-9._%+-]` of the email regex. -/
def emailLocalChar (c : Char) : Bool :=
  c.isAlphanum || c == '.' || c == '_' || c == '%' || c == '+' || c == '-'

/-- Domain character class `[a-zA-Z0-9.-]` of the email regex. -/
def emailDomainChar (c : Char) : Bool :=
  c.isAlphanum || c == '.' || c == '-'

/-- Split a character list at every occurrence of `sep` (the semantics of
`splitOn` for a one-character separator: `n` separators give `n + 1`
segments, so the empty input gives one empty segment). -/
def splitAtChar (sep : Char) : List Char → List (List Char)
  | [] => [[]]
  | c :: rest =>
    if c == sep then [] :: splitAtChar sep rest
    else
      match splitAtChar sep rest with
      | [] => [[c]]
      | w :: ws => (c :: w) :: ws

/-- Full-match semantics of the email regex
`^[a-zA-Z0-9._%+-]+@[a-zA-Z0-9.-]+\.[a-zA-Z]{2,}$` shared by all three
email validators.  Neither character class contains `@`, so a match needs
exactly one `@`; and because the TLD part `[a-zA-Z]{2,}` contains no dot,
a successful backtracking match must split the domain at its last dot.
The domain part before that dot is the dot-joined `ds`: it is empty only
when `ds` is a single empty segment, and its characters lie in the domain
class exactly when every segment's characters do (dots themselves are in
the class). -/
def emailShape (s : String) : Bool :=
  match splitAtChar '@' s.data with
  | [l, r] =>
    (!l.isEmpty) && l.all emailLocalChar &&
    (let segs := splitAtChar '.' r
     let t := segs.getLastD []
     let ds := segs.dropLast
     2 ≤ segs.length && 2 ≤ t.length && t.all Char.isAlpha &&
       !(ds == [[]]) && ds.all (fun seg => seg.all emailDomainChar))
  | _ => false

/-- Symbol class `[!@#$%^&*(),.?":\x7b\x7d|<>]` of the password
strength check. -/
def pwSymbol (c : Char) : Bool :=
  c == '!' || c == '@' || c == '#' || c == '$' || c == '%' || c == '^' ||
  c == '&' || c == '*' || c == '(' || c == ')' || c == ',' || c == '.' ||
  c == '?' || c == '"' || c == ':' || c == '\x7b' || c == '\x7d' ||
  c == '|' || c == '<' || c == '>'

/-- Word character `\w = [a-zA-Z0-9_]` (for the `\b` of the URL regex). -/
def wordChar (c : Char) : Bool :=
  c.isAlphanum || c == '_'

/-- Character class `[-a-zA-Z0-9@:%._\+~#=]` (URL regex, pre-dot part). -/
def urlSet1 (c : Char) : Bool :=
  c.isAlphanum || c == '-' || c == '@' || c == ':' || c == '%' || c == '.' ||
  c == '_' || c == '+' || c == '~' || c == '#' || c == '='

/-- Character class `[a-zA-Z0-9()]` (URL regex, post-dot part). -/
def urlSet2 (c : Char) : Bool :=
  c.isAlphanum || c == '(' || c == ')'

/-- Character class `[-a-zA-Z0-9()@:%_\+.~#?&//=]` (URL regex tail). -/
def urlSet3 (c : Char) : Bool :=
  c.isAlphanum || c == '-' || c == '(' || c == ')' || c == '@' || c == ':' ||
  c == '%' || c == '_' || c == '+' || c == '.' || c == '~' || c == '#' ||
  c == '?' || c == '&' || c == '/' || c == '='

/-- The `\b` between `[a-zA-Z0-9()]{1,6}` and the tail of the URL regex:
a word boundary between the last consumed character and the rest. -/
def urlBoundary (t rest : List Char) : Bool :=
  match t.getLast?, rest.head? with
  | some a, some b => wordChar a != wordChar b
  | some a, none => wordChar a
  | none, _ => false

/-- After a candidate dot of the URL regex: try every length 1..6 for the
`[a-zA-Z0-9()]{1,6}` part, then require the boundary and the tail class. -/
def urlAfterDot (cs : List Char) : Bool :=
  (List.range 6).any fun k =>
    k + 1 ≤ cs.length &&
    (cs.take (k + 1)).all urlSet2 &&
    urlBoundary (cs.take (k + 1)) (cs.drop (k + 1)) &&
    (cs.drop (k + 1)).all urlSet3

/-- Backtracking search over the split dot of the URL regex: `pre` is the
part consumed so far by `[-a-zA-Z0-9@:%._\+~#=]{1,256}`. -/
def urlScan (pre cs : List Char) : Bool :=
  match cs with
  | [] => false
  | c :: rest =>
    (c == '.' && (!pre.isEmpty) && pre.length ≤ 256 && pre.all urlSet1 &&
      urlAfterDot rest)
    || urlScan (pre ++ [c]) rest

/-- Body of the URL regex after the scheme: `(www\.)?` then the dot-split
search. -/
def urlBody (cs : List Char) : Bool :=
  urlScan [] cs || (cs.take 4 == ['w', 'w', 'w', '.'] && urlScan [] (cs.drop 4))

/-- Full-match semantics of the URL regex
`^https?:\/\/(www\.)?[-a-zA-Z0-9@:%._\+~#=]{1,256}\.[a-zA-Z0-9()]{1,6}\b([-a-zA-Z0-9()@:%_\+.~#?&//=]*)$`. -/
def urlShape (s : String) : Bool :=
  if isPrefixOfL "https://".data s.data then urlBody (s.data.drop 8)
  else if isPrefixOfL "http://".data s.data then urlBody (s.data.drop 7)
  else false

/-! Account validators (`accounts/views.py`).  Each `validate_x` strips
the posted value and hands it to `validate_x_core`, exactly as the first
line of the Python handler does. -/

/-- Checks of `validate_username` on the stripped value. -/
def validate_username_core (users : List Account) (username : String) : Outcome :=
  if username = "" then .empty
  else if username.length < 3 then
    .error "Username must be at least 3 characters long"
  else if 150 < username.length then
    .error "Username cannot exceed 150 characters"
  else if !username.data.all usernameChar then
    .error "Username can only contain letters, numbers, and @.+-_ characters"
  else if users.any (fun u => u.username == username) then
    .error "This username is already taken"
  else .success "Username is available!"

/-- `validate_username` endpoint. -/
def validate_username (users : List Account) (raw : String) : Outcome :=
  validate_username_core users (pyStrip raw)

/-- Checks of `validate_first_name` on the stripped value. -/
def validate_first_name_core (first_name : String) : Outcome :=
  if first_name = "" then .empty
  else if first_name.length < 2 then
    .error "First name must be at least 2 characters long"
  else if !first_name.data.all nameChar then
    .error "First name can only contain letters and spaces"
  else .success "First name looks good!"

/-- `validate_first_name` endpoint. -/
def validate_first_name (raw : String) : Outcome :=
  validate_first_name_core (pyStrip raw)

/-- Checks of `validate_last_name` on the stripped value. -/
def validate_last_name_core (last_name : String) : Outcome :=
  if last_name = "" then .empty
  else if last_name.length < 2 then
    .error "Last name must be at least 2 characters long"
  else if !last_name.data.all nameChar then
    .error "Last name can only contain letters and spaces"
  else .success "Last name looks good!"

/-- `validate_last_name` endpoint. -/
def validate_last_name (raw : String) : Outcome :=
  validate_last_name_core (pyStrip raw)

/-- Checks of `validate_email_register` on the stripped value: store
lookup first (error), then shape. -/
def validate_email_register_core (users : List Account) (email : String) : Outcome :=
  if email = "" then .empty
  else if users.any (fun u => u.email == email) then
    .error "An account with this email already exists"
  else if !emailShape email then
    .error "Please enter a valid email address"
  else .success "Email is available!"

/-- `validate_email_register` endpoint. -/
def validate_email_register (users : List Account) (raw : String) : Outcome :=
  validate_email_register_core users (pyStrip raw)

/-- Checks of `validate_password` on the stripped value: the sequential
strength accumulation and feedback appends of the source. -/
def validate_password_core (password : String) : Outcome :=
  if password = "" then .empty
  else
    let r1 : Nat × List String :=
      if 8 ≤ password.length then (1, []) else (0, ["At least 8 characters"])
    let r2 : Nat × List String :=
      if password.data.any Char.isUpper then (1, []) else (0, ["One uppercase letter"])
    let r3 : Nat × List String :=
      if password.data.any Char.isLower then (1, []) else (0, ["One lowercase letter"])
    let r4 : Nat × List String :=
      if password.data.any Char.isDigit then (1, []) else (0, ["One number"])
    let r5 : Nat × List String :=
      if password.data.any pwSymbol then (1, []) else (0, ["One special character"])
    .strength (r1.1 + r2.1 + r3.1 + r4.1 + r5.1)
      (r1.2 ++ r2.2 ++ r3.2 ++ r4.2 ++ r5.2) password.length

/-- `validate_password` endpoint. -/
def validate_password (raw : String) : Outcome :=
  validate_password_core (pyStrip raw)

/-- Checks of `validate_password2` on the two stripped values: empty
confirmation short-circuits, then string equality. -/
def validate_password2_core (password1 password2 : String) : Outcome :=
  if password2 = "" then .empty
  else if password1 ≠ password2 then .error "Passwords do not match"
  else .success "Passwords match!"

/-- `validate_password2` endpoint (both posted values are stripped). -/
def validate_password2 (raw1 raw2 : String) : Outcome :=
  validate_password2_core (pyStrip raw1) (pyStrip raw2)

/-- Checks of `validate_login_username` on the stripped value. -/
def validate_login_username_core (users : List Account) (username : String) : Outcome :=
  if username = "" then .empty
  else if username.length < 3 then .error "Username is too short"
  else if !users.any (fun u => u.username == username) then
    .warning "Username not found"
  else .success "Username found!"

/-- `validate_login_username` endpoint. -/
def validate_login_username (users : List Account) (raw : String) : Outcome :=
  validate_login_username_core users (pyStrip raw)

/-- Checks of `validate_login_password` on the stripped value. -/
def validate_login_password_core (password : String) : Outcome :=
  if password = "" then .empty
  else if password.length < 3 then .error "Password is required"
  else .success "Password entered"

/-- `validate_login_password` endpoint. -/
def validate_login_password (raw : String) : Outcome :=
  validate_login_password_core (pyStrip raw)

/-- Checks of `validate_phone` on the stripped value: keep digits only,
then bound the digit count. -/
def validate_phone_core (phone : String) : Outcome :=
  if phone = "" then .empty
  else
    let digits_only := phone.data.filter Char.isDigit
    if digits_only.length < 10 then
      .error "Phone number must have at least 10 digits"
    else if 15 < digits_only.length then
      .error "Phone number is too long"
    else .success "Phone number is valid!"

/-- `validate_phone` endpoint. -/
def validate_phone (raw : String) : Outcome :=
  validate_phone_core (pyStrip raw)

/-- Checks of `validate_website` on the stripped value. -/
def validate_website_core (website : String) : Outcome :=
  if website = "" then .empty
  else if !urlShape website then
    .error "Please enter a valid URL (include http:// or https://)"
  else .success "Website URL is valid!"

/-- `validate_website` endpoint. -/
def validate_website (raw : String) : Outcome :=
  validate_website_core (pyStrip raw)

/-! Outreach validators (`core/views.py`). -/

/-- Checks of `validate_name` on the stripped value. -/
def validate_name_core (name : String) : Outcome :=
  if name = "" then .empty
  else if name.length < 2 then
    .error "Name must be at least 2 characters long"
  else if !name.data.all nameChar then
    .error "Name can only contain letters and spaces"
  else .success "Name looks good!"

/-- `validate_name` endpoint. -/
def validate_name (raw : String) : Outcome :=
  validate_name_core (pyStrip raw)

/-- Checks of `validate_email` (contact email) on the stripped value:
store lookup first (warning), then shape. -/
def validate_email_core (contacts : List ContactRec) (email : String) : Outcome :=
  if email = "" then .empty
  else if contacts.any (fun c => c.email == email) then
    .warning "This email has contacted us before"
  else if !emailShape email then
    .error "Please enter a valid email address"
  else .success "Email is valid!"

/-- `validate_email` endpoint (contact form email). -/
def validate_email (contacts : List ContactRec) (raw : String) : Outcome :=
  validate_email_core contacts (pyStrip raw)

/-- Checks of `validate_subject` on the stripped value. -/
def validate_subject_core (subject : String) : Outcome :=
  if subject = "" then .empty
  else if subject.length < 5 then
    .error "Subject must be at least 5 characters long"
  else if 200 < subject.length then
    .error "Subject is too long (max 200 characters)"
  else .success "Subject looks good!"

/-- `validate_subject` endpoint. -/
def validate_subject (raw : String) : Outcome :=
  validate_subject_core (pyStrip raw)

/-- Checks of `validate_message` on the stripped value: length gate, then
a success message interpolating `len(message.split())` and `len(message)`. -/
def validate_message_core (message : String) : Outcome :=
  if message = "" then .empty
  else if message.length < 10 then
    .error "Message must be at least 10 characters long"
  else
    .success ("Message looks good! (" ++ toString (pyWords message).length ++
      " words, " ++ toString message.length ++ " characters)")

/-- `validate_message` endpoint. -/
def validate_message (raw : String) : Outcome :=
  validate_message_core (pyStrip raw)

/-- Checks of `validate_newsletter_email` on the stripped value: store
lookup first (warning), then shape. -/
def validate_newsletter_email_core (subs : List String) (email : String) : Outcome :=
  if email = "" then .empty
  else if subs.any (fun e => e == email) then
    .warning "This email is already subscribed"
  else if !emailShape email then
    .error "Please enter a valid email address"
  else .success "Email is ready for subscription!"

/-- `validate_newsletter_email` endpoint. -/
def validate_newsletter_email (subs : List String) (raw : String) : Outcome :=
  validate_newsletter_email_core subs (pyStrip raw)

/-! Newsletter signup handler (`core/views.py`, `newsletter_subscribe`).
The subscription store is the list of subscribed email addresses (the
`is_active` flag and timestamp play no role in this handler). -/

/-- Response classification of `newsletter_subscribe` on a POST. -/
inductive SubscribeResponse where
  | success : SubscribeResponse
  | warningAlready : SubscribeResponse
  | formErrors : SubscribeResponse
  deriving DecidableEq, Repr

/-- Modelled from the spec: `core/models.py` (the `NewsletterSubscription`
record with its unique `email` column) is not under `src/`, so the model
form's validity check and the persistence-time uniqueness violation are
taken from the spec's collaborator boundary — validity is the email-shape
check on the stripped required value, and `create` on an email already in
the store fails with the duplicate-constraint error that the handler's
`try/except` converts into the "already subscribed" warning. -/
def newsletterFormValid (raw : String) : Bool :=
  !(pyStrip raw) == "" && emailShape (pyStrip raw)

/-- `newsletter_subscribe` on a POST carrying `email = raw`: returns the
subscription store after the request together with the response.  When the
form is valid, `form.save()` either inserts the new email or — if it is
already present — raises, and the bare `except` turns that into the
non-fatal warning without touching the store. -/
def newsletter_subscribe (subs : List String) (raw : String) :
    List String × SubscribeResponse :=
  if newsletterFormValid raw then
    let email := pyStrip raw
    if subs.contains email then (subs, .warningAlready)
    else (subs ++ [email], .success)
  else (subs, .formErrors)

/-! Contact listing (`core/views.py`, `contact_list_view`). -/

/-- Response of `contact_list_view`: a redirect away with a flash message
for non-staff users, or the rendered page of contacts. -/
inductive ListResponse where
  | redirectHome : String → ListResponse
  | page : List ContactRec → String → String → ListResponse
  deriving DecidableEq, Repr

/-- The search (`name/email/subject icontains`) and status
(`resolved/pending`) narrowing of the contact queryset, in source order;
an empty query string is falsy in Python, so it applies no filter. -/
def filterContacts (contacts : List ContactRec) (search status : String) :
    List ContactRec :=
  let cs :=
    if search ≠ "" then
      contacts.filter fun c =>
        icontains c.name search || icontains c.email search ||
          icontains c.subject search
    else contacts
  if status = "resolved" then cs.filter fun c => c.is_resolved
  else if status = "pending" then cs.filter fun c => !c.is_resolved
  else cs

/-- Django `Paginator(contacts, per).get_page(number)`: a missing or
non-integer page parameter falls back to page 1, a number below 1 or past
the last page falls back to the last page, and the page is the
corresponding 10-wide slice.  `pageReq = none` stands for a missing or
non-integer parameter. -/
def getPage (l : List ContactRec) (per : Nat) (pageReq : Option Int) :
    List ContactRec :=
  let numPages : Nat := max 1 ((l.length + per - 1) / per)
  let p : Nat :=
    match pageReq with
    | none => 1
    | some n => if n < 1 then numPages
                else if (numPages : Int) < n then numPages
                else n.toNat
  (l.drop ((p - 1) * per)).take per

/-- `contact_list_view` for an authenticated user with staff flag
`is_staff`: non-staff are redirected home with the permission message;
staff get the filtered, 10-per-page slice. -/
def contact_list_view (contacts : List ContactRec) (is_staff : Bool)
    (search status : String) (pageReq : Option Int) : ListResponse :=
  if !is_staff then
    .redirectHome "You do not have permission to view this page."
  else
    .page (getPage (filterContacts contacts search status) 10 pageReq)
      search status

/-! Stateful view of the validation endpoints, for the frame property:
each endpoint is a function of the whole persistent state and the posted
value, returning the state after the request together with the rendered
outcome.  The bodies call only the existence lookups embedded above and
return the state unchanged, mirroring the fact that the Python handlers
issue only `filter(...).exists()` queries and no create/update/delete. -/

/-- The persistent state the endpoints can see: accounts, profiles (by
owner username), contact inquiries and newsletter subscription emails. -/
structure StoreState where
  users : List Account
  profiles : List String
  contacts : List ContactRec
  newsletterEmails : List String
  deriving DecidableEq, Repr

/-- `validate_username` as a state transformer. -/
def validate_username_ep (st : StoreState) (raw : String) : StoreState × Outcome :=
  (st, validate_username st.users raw)

/-- `validate_first_name` as a state transformer. -/
def validate_first_name_ep (st : StoreState) (raw : String) : StoreState × Outcome :=
  (st, validate_first_name raw)

/-- `validate_last_name` as a state transformer. -/
def validate_last_name_ep (st : StoreState) (raw : String) : StoreState × Outcome :=
  (st, validate_last_name raw)

/-- `validate_email_register` as a state transformer. -/
def validate_email_register_ep (st : StoreState) (raw : String) : StoreState × Outcome :=
  (st, validate_email_register st.users raw)

/-- `validate_password` as a state transformer. -/
def validate_password_ep (st : StoreState) (raw : String) : StoreState × Outcome :=
  (st, validate_password raw)

/-- `validate_password2` as a state transformer. -/
def validate_password2_ep (st : StoreState) (raw1 raw2 : String) : StoreState × Outcome :=
  (st, validate_password2 raw1 raw2)

/-- `validate_login_username` as a state transformer. -/
def validate_login_username_ep (st : StoreState) (raw : String) : StoreState × Outcome :=
  (st, validate_login_username st.users raw)

/-- `validate_login_password` as a state transformer. -/
def validate_login_password_ep (st : StoreState) (raw : String) : StoreState × Outcome :=
  (st, validate_login_password raw)

/-- `validate_phone` as a state transformer. -/
def validate_phone_ep (st : StoreState) (raw : String) : StoreState × Outcome :=
  (st, validate_phone raw)

/-- `validate_website` as a state transformer. -/
def validate_website_ep (st : StoreState) (raw : String) : StoreState × Outcome :=
  (st, validate_website raw)

/-- `validate_name` as a state transformer. -/
def validate_name_ep (st : StoreState) (raw : String) : StoreState × Outcome :=
  (st, validate_name raw)

/-- `validate_email` (contact) as a state transformer. -/
def validate_email_ep (st : StoreState) (raw : String) : StoreState × Outcome :=
  (st, validate_email st.contacts raw)

/-- `validate_subject` as a state transformer. -/
def validate_subject_ep (st : StoreState) (raw : String) : StoreState × Outcome :=
  (st, validate_subject raw)

/-- `validate_message` as a state transformer. -/
def validate_message_ep (st : StoreState) (raw : String) : StoreState × Outcome :=
  (st, validate_message raw)

/-- `validate_newsletter_email` as a state transformer. -/
def validate_newsletter_email_ep (st : StoreState) (raw : String) : StoreState × Outcome :=
  (st, validate_newsletter_email st.newsletterEmails raw)

/-- Sample resolved contact record, used to exercise the listing. -/
def demoAlice : ContactRec :=
  { name := "Alice", email := "alice@example.com",
    subject := "Hello there", is_resolved := true }

/-- Sample pending contact record, used to exercise the listing. -/
def demoBob : ContactRec :=
  { name := "Bob", email := "bob@example.com",
    subject := "Subject line", is_resolved := false }

/-- Sample contact store, used to exercise the listing. -/
def demoContacts : List ContactRec := [demoAlice, demoBob]

/-- The five password-strength criteria in the order the source checks
them — length, uppercase, lowercase, digit, symbol — each paired with its
unmet-criterion feedback line.  Used to characterize `validate_password`:
the score counts the satisfied criteria and the feedback lists the unmet
ones in this fixed order. -/
def pwChecks (p : String) : List (Bool × String) :=
  [(decide (8 ≤ p.length), "At least 8 characters"),
   (p.data.any Char.isUpper, "One uppercase letter"),
   (p.data.any Char.isLower, "One lowercase letter"),
   (p.data.any Char.isDigit, "One number"),
   (p.data.any pwSymbol, "One special character")]

/-! Theorems. -/

/-- C1: for every field-validation endpoint, an empty or missing field
value (missing arrives as `""` through `request.POST.get(field, '')`, and
the handler strips it) produces the empty outcome, never a success,
warning or error fragment; and since every embedded check function is a
total Lean function, no check can raise — malformed input degrades to the
empty outcome. -/
theorem empty_input_yields_empty_outcome
    (users : List Account) (contacts : List ContactRec) (subs : List String)
    (other raw : String) (h : pyStrip raw = "") :
    validate_username users raw = .empty ∧
    validate_first_name raw = .empty ∧
    validate_last_name raw = .empty ∧
    validate_email_register users raw = .empty ∧
    validate_password raw = .empty ∧
    validate_password2 other raw = .empty ∧
    validate_login_username users raw = .empty ∧
    validate_login_password raw = .empty ∧
    validate_phone raw = .empty ∧
    validate_website raw = .empty ∧
    validate_name raw = .empty ∧
    validate_email contacts raw = .empty ∧
    validate_subject raw = .empty ∧
    validate_message raw = .empty ∧
    validate_newsletter_email subs raw = .empty := by
  refine ⟨?_, ?_, ?_, ?_, ?_, ?_, ?_, ?_, ?_, ?_, ?_, ?_, ?_, ?_, ?_⟩ <;>
    simp [validate_username, validate_username_core,
      validate_first_name, validate_first_name_core,
      validate_last_name, validate_last_name_core,
      validate_email_register, validate_email_register_core,
      validate_password, validate_password_core,
      validate_password2, validate_password2_core,
      validate_login_username, validate_login_username_core,
      validate_login_password, validate_login_password_core,
      validate_phone, validate_phone_core,
      validate_website, validate_website_core,
      validate_name, validate_name_core,
      validate_email, validate_email_core,
      validate_subject, validate_subject_core,
      validate_message, validate_message_core,
      validate_newsletter_email, validate_newsletter_email_core, h]

/-- Witness for C1: the whitespace-only value `"  "` strips to `""` and
every endpoint returns the empty outcome on it. -/
theorem empty_input_yields_empty_outcome_witness :
    validate_username [] "  " = .empty ∧
    validate_first_name "  " = .empty ∧
    validate_last_name "  " = .empty ∧
    validate_email_register [] "  " = .empty ∧
    validate_password "  " = .empty ∧
    validate_password2 "x" "  " = .empty ∧
    validate_login_username [] "  " = .empty ∧
    validate_login_password "  " = .empty ∧
    validate_phone "  " = .empty ∧
    validate_website "  " = .empty ∧
    validate_name "  " = .empty ∧
    validate_email [] "  " = .empty ∧
    validate_subject "  " = .empty ∧
    validate_message "  " = .empty ∧
    validate_newsletter_email [] "  " = .empty :=
  empty_input_yields_empty_outcome [] [] [] "x" "  " (by decide)

/-- C10: every field-validation endpoint is read-only with respect to the
persistent store — viewed as state transformers, the endpoints perform
only existence lookups and return the state unchanged, so the stored
entity sets (accounts, profiles, contact inquiries, newsletter
subscriptions) before and after any validation call are identical. -/
theorem validation_endpoints_read_only
    (st : StoreState) (raw raw2 : String) :
    (validate_username_ep st raw).1 = st ∧
    (validate_first_name_ep st raw).1 = st ∧
    (validate_last_name_ep st raw).1 = st ∧
    (validate_email_register_ep st raw).1 = st ∧
    (validate_password_ep st raw).1 = st ∧
    (validate_password2_ep st raw raw2).1 = st ∧
    (validate_login_username_ep st raw).1 = st ∧
    (validate_login_password_ep st raw).1 = st ∧
    (validate_phone_ep st raw).1 = st ∧
    (validate_website_ep st raw).1 = st ∧
    (validate_name_ep st raw).1 = st ∧
    (validate_email_ep st raw).1 = st ∧
    (validate_subject_ep st raw).1 = st ∧
    (validate_message_ep st raw).1 = st ∧
    (validate_newsletter_email_ep st raw).1 = st :=
  ⟨rfl, rfl, rfl, rfl, rfl, rfl, rfl, rfl, rfl, rfl, rfl, rfl, rfl, rfl, rfl⟩

/-- Witness for C10 (the theorem has universally quantified state and
values but no propositional hypothesis; this instance evaluates it on a
concrete store anyway). -/
theorem validation_endpoints_read_only_witness :
    (validate_username_ep ⟨[⟨"ann", "a@b.com"⟩], ["ann"], [demoAlice], ["s@b.com"]⟩
        "ann").1 = ⟨[⟨"ann", "a@b.com"⟩], ["ann"], [demoAlice], ["s@b.com"]⟩ :=
  (validation_endpoints_read_only _ "ann" "x").1

/-- A value consisting only of whitespace strips to the empty string. -/
theorem pyStrip_eq_empty_of_all_whitespace (s : String)
    (h : ∀ c ∈ s.data, isPyWhitespace c = true) : pyStrip s = "" := by
  unfold pyStrip
  rw [List.dropWhile_eq_nil_iff.2 h]
  simp

/-- C9: every field-validation endpoint strips the raw value before any
check, so any two inputs with the same stripped value (in particular,
inputs differing only in surrounding whitespace) get identical outcomes;
a whitespace-only value is treated as empty, the strength score is
computed over the stripped password, and the confirmation check compares
the stripped values, so padding-only differences still report a match. -/
theorem validators_strip_insensitive (v₁ v₂ : String)
    (h : pyStrip v₁ = pyStrip v₂) :
    (∀ users, validate_username users v₁ = validate_username users v₂) ∧
    validate_first_name v₁ = validate_first_name v₂ ∧
    validate_last_name v₁ = validate_last_name v₂ ∧
    (∀ users, validate_email_register users v₁ = validate_email_register users v₂) ∧
    validate_password v₁ = validate_password v₂ ∧
    (∀ w₁ w₂, pyStrip w₁ = pyStrip w₂ →
      validate_password2 v₁ w₁ = validate_password2 v₂ w₂) ∧
    (∀ users, validate_login_username users v₁ = validate_login_username users v₂) ∧
    validate_login_password v₁ = validate_login_password v₂ ∧
    validate_phone v₁ = validate_phone v₂ ∧
    validate_website v₁ = validate_website v₂ ∧
    validate_name v₁ = validate_name v₂ ∧
    (∀ contacts, validate_email contacts v₁ = validate_email contacts v₂) ∧
    validate_subject v₁ = validate_subject v₂ ∧
    validate_message v₁ = validate_message v₂ ∧
    (∀ subs, validate_newsletter_email subs v₁ = validate_newsletter_email subs v₂) ∧
    ((∀ c ∈ v₁.data, isPyWhitespace c = true) →
      validate_name v₁ = .empty ∧ validate_password v₁ = .empty) ∧
    validate_password v₁ = validate_password_core (pyStrip v₁) ∧
    (pyStrip v₂ ≠ "" → validate_password2 v₁ v₂ = .success "Passwords match!") := by
  refine ⟨fun users => ?_, ?_, ?_, fun users => ?_, ?_, fun w₁ w₂ hw => ?_,
    fun users => ?_, ?_, ?_, ?_, ?_, fun contacts => ?_, ?_, ?_, fun subs => ?_,
    fun hws => ?_, rfl, fun hne => ?_⟩
  · unfold validate_username; rw [h]
  · unfold validate_first_name; rw [h]
  · unfold validate_last_name; rw [h]
  · unfold validate_email_register; rw [h]
  · unfold validate_password; rw [h]
  · unfold validate_password2; rw [h, hw]
  · unfold validate_login_username; rw [h]
  · unfold validate_login_password; rw [h]
  · unfold validate_phone; rw [h]
  · unfold validate_website; rw [h]
  · unfold validate_name; rw [h]
  · unfold validate_email; rw [h]
  · unfold validate_subject; rw [h]
  · unfold validate_message; rw [h]
  · unfold validate_newsletter_email; rw [h]
  · have he := pyStrip_eq_empty_of_all_whitespace v₁ hws
    exact ⟨by simp [validate_name, validate_name_core, he],
      by simp [validate_password, validate_password_core, he]⟩
  · unfold validate_password2 validate_password2_core
    rw [h]
    simp [hne]

/-- Witness for C9: `" secret1 "` and `"secret1"` strip to the same value,
so the password endpoint scores them identically and the confirmation
endpoint reports the pair as matching. -/
theorem validators_strip_insensitive_witness :
    validate_password " secret1 " = validate_password "secret1" ∧
    validate_password2 " secret1 " "secret1" = .success "Passwords match!" := by
  obtain ⟨h1, h2, h3, h4, h5, h6, h7, h8, h9, h10, h11, h12, h13, h14, h15,
    h16, h17, h18⟩ := validators_strip_insensitive " secret1 " "secret1" (by decide)
  exact ⟨h5, h18 (by decide)⟩

/-- C4: on non-empty stripped input the registration username validator
runs exactly these checks in this order, the first failing check giving
the error — length at least 3, length at most 150, charset
`[A-Za-z0-9@.+_-]`, and username not already present in the account
store; `"ab"` yields the "at least 3 characters" error and `"abc"` with
no existing match yields success. -/
theorem validate_username_check_order
    (users : List Account) (raw : String) (h : pyStrip raw ≠ "") :
    ((pyStrip raw).length < 3 →
      validate_username users raw =
        .error "Username must be at least 3 characters long") ∧
    (3 ≤ (pyStrip raw).length → 150 < (pyStrip raw).length →
      validate_username users raw =
        .error "Username cannot exceed 150 characters") ∧
    (3 ≤ (pyStrip raw).length → (pyStrip raw).length ≤ 150 →
      (pyStrip raw).data.all usernameChar = false →
      validate_username users raw =
        .error "Username can only contain letters, numbers, and @.+-_ characters") ∧
    (3 ≤ (pyStrip raw).length → (pyStrip raw).length ≤ 150 →
      (pyStrip raw).data.all usernameChar = true →
      users.any (fun u => u.username == pyStrip raw) = true →
      validate_username users raw = .error "This username is already taken") ∧
    (3 ≤ (pyStrip raw).length → (pyStrip raw).length ≤ 150 →
      (pyStrip raw).data.all usernameChar = true →
      users.any (fun u => u.username == pyStrip raw) = false →
      validate_username users raw = .success "Username is available!") ∧
    validate_username [] "ab" = .error "Username must be at least 3 characters long" ∧
    containsL "Username must be at least 3 characters long".data
      "at least 3 characters".data = true ∧
    validate_username [] "abc" = .success "Username is available!" := by
  refine ⟨fun h3 => ?_, fun h3 h150 => ?_, fun h3 h150 hchar => ?_,
    fun h3 h150 hchar htaken => ?_, fun h3 h150 hchar htaken => ?_,
    by decide, by decide, by decide⟩ <;>
    unfold validate_username validate_username_core
  · rw [if_neg h, if_pos h3]
  · rw [if_neg h, if_neg (by omega : ¬ (pyStrip raw).length < 3), if_pos h150]
  · rw [if_neg h, if_neg (by omega : ¬ (pyStrip raw).length < 3),
      if_neg (by omega : ¬ 150 < (pyStrip raw).length),
      if_pos (by simp [hchar])]
  · rw [if_neg h, if_neg (by omega : ¬ (pyStrip raw).length < 3),
      if_neg (by omega : ¬ 150 < (pyStrip raw).length),
      if_neg (by simp [hchar]), if_pos htaken]
  · rw [if_neg h, if_neg (by omega : ¬ (pyStrip raw).length < 3),
      if_neg (by omega : ¬ 150 < (pyStrip raw).length),
      if_neg (by simp [hchar]), if_neg (by simp [htaken])]

/-- Witness for C4: both concrete examples, obtained by applying the
theorem at the empty account store. -/
theorem validate_username_check_order_witness :
    validate_username [] "ab" = .error "Username must be at least 3 characters long" ∧
    validate_username [] "abc" = .success "Username is available!" :=
  ⟨(validate_username_check_order [] "ab" (by decide)).1 (by decide),
   (validate_username_check_order [] "abc" (by decide)).2.2.2.2.1 (by decide)
     (by decide) (by decide) (by decide)⟩

/-- C6: a stripped message of length at least 10 yields a success outcome
embedding the number of whitespace-separated tokens and the character
count of the message; a non-empty message shorter than 10 characters
yields the length error.  The spec's example message evaluates to
"4 words, 18 characters". -/
theorem validate_message_reports_counts (raw : String) (h : pyStrip raw ≠ "") :
    ((pyStrip raw).length < 10 →
      validate_message raw = .error "Message must be at least 10 characters long") ∧
    (10 ≤ (pyStrip raw).length →
      validate_message raw = .success ("Message looks good! (" ++
        toString (pyWords (pyStrip raw)).length ++ " words, " ++
        toString (pyStrip raw).length ++ " characters)")) ∧
    validate_message "this is ten+ chars" =
      .success "Message looks good! (4 words, 18 characters)" := by
  refine ⟨fun hlt => ?_, fun hge => ?_, by decide⟩ <;>
    unfold validate_message validate_message_core
  · rw [if_neg h, if_pos hlt]
  · rw [if_neg h, if_neg (by omega : ¬ (pyStrip raw).length < 10)]

/-- Witness for C6: a 5-character message errors; the spec's example
message succeeds with the correct counts. -/
theorem validate_message_reports_counts_witness :
    validate_message "short" = .error "Message must be at least 10 characters long" ∧
    validate_message "this is ten+ chars" =
      .success "Message looks good! (4 words, 18 characters)" :=
  ⟨(validate_message_reports_counts "short" (by decide)).1 (by decide),
   (validate_message_reports_counts "this is ten+ chars" (by decide)).2.2⟩

/-- C7 counterexample: the raw values `"abc "` and `"abc"` are unequal,
yet the confirmation validator reports success, because both operands are
stripped before comparison — so "unequal values yield an error" fails as
stated on raw values. -/
theorem validate_password2_strip_counterexample :
    validate_password2 "abc " "abc" = .success "Passwords match!" := by decide

/-- C7 (amended): for every pair whose confirmation is non-empty after
stripping, equal stripped values yield success and unequal stripped
values yield the "Passwords do not match" error. -/
theorem validate_password2_match (raw1 raw2 : String)
    (h : pyStrip raw2 ≠ "") :
    (pyStrip raw1 = pyStrip raw2 →
      validate_password2 raw1 raw2 = .success "Passwords match!") ∧
    (pyStrip raw1 ≠ pyStrip raw2 →
      validate_password2 raw1 raw2 = .error "Passwords do not match") := by
  refine ⟨fun heq => ?_, fun hne => ?_⟩ <;>
    unfold validate_password2 validate_password2_core
  · rw [if_neg h, if_neg (by simp [heq])]
  · rw [if_neg h, if_pos hne]

/-- Witness for C7: equal and unequal concrete pairs. -/
theorem validate_password2_match_witness :
    validate_password2 "abc" "abc" = .success "Passwords match!" ∧
    validate_password2 "abc" "abd" = .error "Passwords do not match" :=
  ⟨(validate_password2_match "abc" "abc" (by decide)).1 (by decide),
   (validate_password2_match "abc" "abd" (by decide)).2 (by decide)⟩

/-- C3 counterexample: the newsletter email validator also evaluates its
store-lookup warning before the shape check — a shape-invalid email that
is already in the subscription store yields the warning, not the shape
error — so "this ordering holds for the contact email field only" is
false. -/
theorem newsletter_warning_precedes_shape_counterexample :
    validate_newsletter_email ["bad"] "bad" =
      .warning "This email is already subscribed" ∧
    emailShape "bad" = false := by decide

/-- C3 (amended): every non-empty contact email matching an existing
`ContactInquiry` record yields the warning, even when shape-valid (the
warning conjunct needs no shape hypothesis); a shape-invalid,
not-previously-seen email yields the error; and the store-lookup-before-
shape-check ordering holds for the contact email and the newsletter email
validators (the register email validator also consults its store first,
but produces an error rather than a warning). -/
theorem contact_email_warning_precedes_shape
    (contacts : List ContactRec) (subs : List String) (raw : String)
    (h : pyStrip raw ≠ "") :
    (contacts.any (fun c => c.email == pyStrip raw) = true →
      validate_email contacts raw = .warning "This email has contacted us before") ∧
    (contacts.any (fun c => c.email == pyStrip raw) = false →
      emailShape (pyStrip raw) = false →
      validate_email contacts raw = .error "Please enter a valid email address") ∧
    (contacts.any (fun c => c.email == pyStrip raw) = false →
      emailShape (pyStrip raw) = true →
      validate_email contacts raw = .success "Email is valid!") ∧
    (subs.any (fun e => e == pyStrip raw) = true →
      validate_newsletter_email subs raw = .warning "This email is already subscribed") := by
  refine ⟨fun hseen => ?_, fun hseen hshape => ?_, fun hseen hshape => ?_,
    fun hsub => ?_⟩
  · unfold validate_email validate_email_core
    rw [if_neg h, if_pos hseen]
  · unfold validate_email validate_email_core
    rw [if_neg h, if_neg (by simp [hseen]), if_pos (by simp [hshape])]
  · unfold validate_email validate_email_core
    rw [if_neg h, if_neg (by simp [hseen]), if_neg (by simp [hshape])]
  · unfold validate_newsletter_email validate_newsletter_email_core
    rw [if_neg h, if_pos hsub]

/-- Witness for C3: a shape-valid previously-seen contact email warns, a
shape-invalid unseen one errors, a shape-valid unseen one succeeds, and a
subscribed newsletter email warns. -/
theorem contact_email_warning_precedes_shape_witness :
    validate_email [demoAlice] "alice@example.com" =
      .warning "This email has contacted us before" ∧
    validate_email [demoAlice] "notanemail" =
      .error "Please enter a valid email address" ∧
    validate_email [demoAlice] "bob@example.com" = .success "Email is valid!" ∧
    validate_newsletter_email ["sub@example.com"] "sub@example.com" =
      .warning "This email is already subscribed" :=
  ⟨(contact_email_warning_precedes_shape [demoAlice] [] "alice@example.com"
      (by decide)).1 (by decide),
   (contact_email_warning_precedes_shape [demoAlice] [] "notanemail"
      (by decide)).2.1 (by decide) (by decide),
   (contact_email_warning_precedes_shape [demoAlice] [] "bob@example.com"
      (by decide)).2.2.1 (by decide) (by decide),
   (contact_email_warning_precedes_shape [] ["sub@example.com"] "sub@example.com"
      (by decide)).2.2.2 (by decide)⟩

/-- C5: a newsletter signup whose (stripped) email is already in the
subscription store leaves the store unchanged — no duplicate record is
created — and, when that email has a valid shape (so the form binds), the
response is the non-fatal "already subscribed" warning produced by
catching the duplicate-constraint failure of `form.save()`. -/
theorem newsletter_duplicate_subscribe_warning
    (subs : List String) (raw : String) (hmem : pyStrip raw ∈ subs) :
    (newsletter_subscribe subs raw).1 = subs ∧
    (emailShape (pyStrip raw) = true →
      newsletter_subscribe subs raw = (subs, .warningAlready)) := by
  constructor
  · unfold newsletter_subscribe
    by_cases hv : newsletterFormValid raw = true
    · simp [hv, hmem]
    · simp [hv]
  · intro hshape
    have hne : pyStrip raw ≠ "" := by
      intro h0
      rw [h0] at hshape
      exact absurd hshape (by decide)
    have hv : newsletterFormValid raw = true := by
      simp [newsletterFormValid, hshape, hne]
    unfold newsletter_subscribe
    simp [hv, hmem]

/-- Witness for C5: subscribing `"sub@example.com"` a second time warns
and leaves the one-element store as it was. -/
theorem newsletter_duplicate_subscribe_warning_witness :
    (newsletter_subscribe ["sub@example.com"] "sub@example.com").1 =
      ["sub@example.com"] ∧
    newsletter_subscribe ["sub@example.com"] "sub@example.com" =
      (["sub@example.com"], .warningAlready) :=
  ⟨(newsletter_duplicate_subscribe_warning ["sub@example.com"] "sub@example.com"
      (by decide)).1,
   (newsletter_duplicate_subscribe_warning ["sub@example.com"] "sub@example.com"
      (by decide)).2 (by decide)⟩

/-- C2 counterexample: on `"aaaaaaaa"` the validator scores 2 (length at
least 8 and a lowercase letter each add one) and lists three unmet
criteria, not score 1 with four unmet criteria as claimed. -/
theorem validate_password_aaaaaaaa_counterexample :
    validate_password "aaaaaaaa" =
      .strength 2 ["One uppercase letter", "One number", "One special character"] 8 ∧
    ["One uppercase letter", "One number", "One special character"].length = 3 := by
  decide

/-- C2 (amended): the strength check adds 1 (from 0, maximum 5) for each
satisfied criterion among length ≥ 8, uppercase, lowercase, digit and
symbol; every non-empty input renders the strength outcome whose score
counts the satisfied criteria and whose feedback lists the unmet criteria
in the fixed order length, uppercase, lowercase, digit, symbol;
`"Aa1!aaaa"` scores 5 with an empty criteria list, and `"aaaaaaaa"`
scores 2 with the three unmet criteria uppercase, digit, symbol. -/
theorem validate_password_strength_score (raw : String)
    (h : pyStrip raw ≠ "") :
    validate_password raw =
      .strength ((pwChecks (pyStrip raw)).countP (fun x => x.1))
        (((pwChecks (pyStrip raw)).filter (fun x => !x.1)).map Prod.snd)
        (pyStrip raw).length ∧
    (pwChecks (pyStrip raw)).countP (fun x => x.1) ≤ 5 ∧
    validate_password "Aa1!aaaa" = .strength 5 [] 8 ∧
    validate_password "aaaaaaaa" =
      .strength 2 ["One uppercase letter", "One number", "One special character"] 8 := by
  refine ⟨?_, le_trans (List.countP_le_length _) (by simp [pwChecks]),
    by decide, by decide⟩
  unfold validate_password validate_password_core
  rw [if_neg h]
  by_cases h1 : 8 ≤ (pyStrip raw).length <;>
    cases h2 : (pyStrip raw).data.any Char.isUpper <;>
    cases h3 : (pyStrip raw).data.any Char.isLower <;>
    cases h4 : (pyStrip raw).data.any Char.isDigit <;>
    cases h5 : (pyStrip raw).data.any pwSymbol <;>
    simp [pwChecks, h1, h2, h3, h4, h5, List.countP_cons, List.countP_nil]

/-- Witness for C2: both concrete inputs of the claim, obtained from the
theorem. -/
theorem validate_password_strength_score_witness :
    validate_password "Aa1!aaaa" = .strength 5 [] 8 ∧
    validate_password "aaaaaaaa" =
      .strength 2 ["One uppercase letter", "One number", "One special character"] 8 :=
  ⟨(validate_password_strength_score "Aa1!aaaa" (by decide)).2.2.1,
   (validate_password_strength_score "aaaaaaaa" (by decide)).2.2.2⟩

/-- Every record surviving the contact-list narrowing matches the search
and status query parameters that were applied. -/
theorem filterContacts_sound (contacts : List ContactRec)
    (search status : String) (c : ContactRec)
    (hc : c ∈ filterContacts contacts search status) :
    (search ≠ "" → (icontains c.name search || icontains c.email search ||
      icontains c.subject search) = true) ∧
    (status = "resolved" → c.is_resolved = true) ∧
    (status = "pending" → c.is_resolved = false) := by
  unfold filterContacts at hc
  by_cases hs : search = "" <;> by_cases h1 : status = "resolved" <;>
    by_cases h2 : status = "pending" <;>
    simp [hs, h1, h2, List.mem_filter] at hc ⊢ <;> tauto

/-- C8: the contact listing is staff-only with 10-per-page pagination —
a non-staff user is redirected home with the permission message rather
than failing hard, and for a staff user every rendered page holds at most
10 records, each matching the search and status query parameters when
those are present. -/
theorem contact_list_staff_only_paginated (contacts : List ContactRec)
    (search status : String) (pageReq : Option Int) :
    contact_list_view contacts false search status pageReq =
      .redirectHome "You do not have permission to view this page." ∧
    (∀ l s q, contact_list_view contacts true search status pageReq = .page l s q →
      l.length ≤ 10 ∧
      ∀ c ∈ l,
        (search ≠ "" → (icontains c.name search || icontains c.email search ||
          icontains c.subject search) = true) ∧
        (status = "resolved" → c.is_resolved = true) ∧
        (status = "pending" → c.is_resolved = false)) := by
  constructor
  · rfl
  · intro l s q heq
    unfold contact_list_view at heq
    simp at heq
    obtain ⟨h1, h2, h3⟩ := heq
    constructor
    · rw [← h1]
      unfold getPage
      exact List.length_take_le _ _
    · intro c hc
      rw [← h1] at hc
      unfold getPage at hc
      exact filterContacts_sound contacts search status c
        (List.mem_of_mem_drop (List.mem_of_mem_take hc))

/-- Witness for C8: on a two-record store the non-staff request redirects,
and the staff page for `search=ali&status=resolved` is the single matching
resolved record, which satisfies both filters. -/
theorem contact_list_staff_only_paginated_witness :
    contact_list_view demoContacts false "ali" "resolved" none =
      .redirectHome "You do not have permission to view this page." ∧
    ([demoAlice].length ≤ 10 ∧
      ∀ c ∈ [demoAlice],
        ("ali" ≠ "" → (icontains c.name "ali" || icontains c.email "ali" ||
          icontains c.subject "ali") = true) ∧
        ("resolved" = "resolved" → c.is_resolved = true) ∧
        ("resolved" = "pending" → c.is_resolved = false)) :=
  ⟨(contact_list_staff_only_paginated demoContacts "ali" "resolved" none).1,
   (contact_list_staff_only_paginated demoContacts "ali" "resolved" none).2
     [demoAlice] "ali" "resolved" (by decide)⟩
